import Mathlib

/-!
Shallow embedding of the Telegram work-analyzer pipeline (`analyzer.py`):
entity classification, message collection, statistics aggregation, prompt
construction, response parsing, report rendering and bot delivery, together
with proofs of the behavioural properties stated in the specification.

Modelling conventions:
* Python strings are Lean `String`s; Python slicing `s[:n]` is by code
  points in both, modelled by `pyTake`.
* Python `dict`s (iterated in insertion order) are association lists; a
  key assignment that overwrites keeps the key's original position
  (`dictInsert`), exactly as CPython does.
* An `Option` field on an entity models a Python attribute that may be
  absent (`getattr` default) or `None`; `pyTruthy` models Python string
  truthiness (`None` and `""` are falsy).
* External collaborators (Telegram client, `json.loads`, HTTP transport)
  are explicit inputs: per-dialog message streams carry an optional fetch
  fault position, the JSON decoder is a function argument, the bot
  transport is a function from call index to outcome.
-/

namespace TgAnalyzer

/-- Python string slice `s[:n]` (by code points). -/
def pyTake (n : Nat) (s : String) : String := ⟨s.data.take n⟩

/-- Python list slice `l[:n]`. -/
def pyTakeList (n : Nat) (l : List α) : List α := l.take n

/-- Python string truthiness of an optional string: `None` and `""` are
falsy, every other string truthy. -/
def pyTruthy : Option String → Bool
  | none => false
  | some s => !(s == "")

/-- Python `str.strip()`: remove leading and trailing whitespace. -/
def pyStrip (s : String) : String :=
  ⟨((s.data.dropWhile Char.isWhitespace).reverse.dropWhile Char.isWhitespace).reverse⟩

/-- Assoc-list lookup with default, modelling Python `dict.get(k, d)`. -/
def lookupD (k : String) (d : Nat) (l : List (String × Nat)) : Nat :=
  match l.find? (fun p => p.1 == k) with
  | some p => p.2
  | none => d

/-- Python `dict` assignment `m[k] = v`: overwrites in place when the key
exists (keeping its original position), else appends at the end. -/
def dictInsert (k : String) (v : β) : List (String × β) → List (String × β)
  | [] => [(k, v)]
  | (k', v') :: rest => if k' == k then (k, v) :: rest else (k', v') :: dictInsert k v rest

/-- Python `defaultdict(int)` increment `m[k] += 1` on an assoc list. -/
def bumpStr (k : String) : List (String × Nat) → List (String × Nat)
  | [] => [(k, 1)]
  | (k', v) :: rest => if k' == k then (k, v + 1) :: rest else (k', v) :: bumpStr k rest

/-- Increment for the hour-keyed counters (`stats["hour_<h>"] += 1`); the
string keys `"hour_<h>"` are represented by their numeric part `h`. -/
def bumpNat (k : Nat) : List (Nat × Nat) → List (Nat × Nat)
  | [] => [(k, 1)]
  | (k', v) :: rest => if k' == k then (k, v + 1) :: rest else (k', v) :: bumpNat k rest

/-- Configured analysis window (`DAYS_TO_ANALYZE = 30`). -/
def DAYS_TO_ANALYZE : Nat := 30

/-- Per-chat message cap (`MAX_MESSAGES_PER_CHAT = 500`). -/
def MAX_MESSAGES_PER_CHAT : Nat := 500

/-- Dialog cap (`MAX_CHATS = 50`). -/
def MAX_CHATS : Nat := 50

/-- A raw Telethon entity: a `User`, a small-group `Chat`, a broadcast
`Channel`, or anything unrecognized.  `title : Option String` models the
`title` attribute being absent (`none`) versus present (`some s`, where
`s` may be empty); `first_name`/`last_name` may be `None` in Telethon,
modelled by `none`. -/
inductive Entity where
  | user (id : Int) (first_name : Option String) (last_name : Option String) (bot : Bool)
  | chat (id : Int) (title : Option String)
  | channel (id : Int) (title : Option String) (megagroup : Bool)
  | other (id : Int) (title : Option String)
deriving DecidableEq, Repr

/-- Model of `TelegramWorkAnalyzer._get_chat_name`:
for a `User`, `(first_name or "") (+ " " + last_name if truthy)`, stripped,
with fallback `User_<id>`; otherwise `getattr(entity, 'title', "Chat_<id>")`. -/
def getChatName : Entity → String
  | .user id fn ln _ =>
      let name := fn.getD ""
      let name := if pyTruthy ln then name ++ " " ++ ln.getD "" else name
      let stripped := pyStrip name
      if stripped == "" then "User_" ++ toString id else stripped
  | .chat id title => title.getD ("Chat_" ++ toString id)
  | .channel id title _ => title.getD ("Chat_" ++ toString id)
  | .other id title => title.getD ("Chat_" ++ toString id)

/-- Model of `TelegramWorkAnalyzer._get_chat_type`. -/
def getChatType : Entity → String
  | .user _ _ _ bot => if bot then "bot" else "personal"
  | .chat _ _ => "group"
  | .channel _ _ megagroup => if megagroup then "supergroup" else "channel"
  | .other _ _ => "unknown"

/-- A message timestamp: `ts` orders it against the cutoff
(`msg.date.replace(tzinfo=None) < cutoff_date`), `hour` is `msg.date.hour`
(0..23 for real datetimes), `iso` is `msg.date.isoformat()`. -/
structure PyDate where
  ts : Int
  hour : Nat
  iso : String
deriving DecidableEq, Repr

/-- A raw message as yielded by `client.iter_messages` (only the fields
the collector reads).  `text = ""` models both `None` and empty text,
which are equally falsy under `if msg.text:`. -/
structure RawMsg where
  date : PyDate
  text : String
  sender_id : Int
deriving DecidableEq, Repr

/-- One dialog from `client.get_dialogs`: its entity and its message
stream, newest first.  `failAfter = some k` means the stream's iterator
raises a fetch error when asked for its `(k+1)`-st message (if iteration
gets that far); `none` means the fetch never faults. -/
structure Dialog where
  entity : Entity
  msgs : List RawMsg
  failAfter : Option Nat
deriving DecidableEq, Repr

/-- The stored per-message record (`msg_data`). -/
structure Msg where
  date : String
  text : String
  is_mine : Bool
  hour : Nat
deriving DecidableEq, Repr

/-- An entry of the flat `my_messages` list
(`{"chat": ..., "chat_type": ..., **msg_data}`). -/
structure MyMsg where
  chat : String
  chat_type : String
  date : String
  text : String
  is_mine : Bool
  hour : Nat
deriving DecidableEq, Repr

/-- A per-chat record (`self.data["chats"][chat_name]`). -/
structure ChatRecord where
  type : String
  total_messages : Nat
  my_messages : Nat
  messages : List Msg
deriving DecidableEq, Repr

/-- The message loop of `collect_messages` for one dialog: walk the
(limit-capped) stream, break at the first message older than the cutoff,
keep non-empty texts truncated to 1000 characters, tag ownership and
hour, count and collect the user's own messages.  Returns the local
`messages` list, `my_messages_count`, the entries appended to the flat
`my_messages` list, and whether the iterator raised a fetch fault. -/
def dialogLoop (myId : Int) (cutoff : Int) (chatName chatType : String) :
    Option Nat → List RawMsg → List Msg × Nat × List MyMsg × Bool
  | _, [] => ([], 0, [], false)
  | failAfter, m :: rest =>
      if failAfter = some 0 then ([], 0, [], true)
      else if m.date.ts < cutoff then ([], 0, [], false)
      else
        let next := dialogLoop myId cutoff chatName chatType (failAfter.map (· - 1)) rest
        if m.text == "" then next
        else
          let md : Msg := ⟨m.date.iso, pyTake 1000 m.text, m.sender_id == myId, m.date.hour⟩
          if m.sender_id == myId then
            (md :: next.1, next.2.1 + 1,
              ⟨chatName, chatType, md.date, md.text, md.is_mine, md.hour⟩ :: next.2.2.1,
              next.2.2.2)
          else
            (md :: next.1, next.2.1, next.2.2.1, next.2.2.2)

/-- One iteration of `collect_messages` over one dialog: classify, skip
bots, run the message loop inside `try`, and produce the optional chat
record (`if messages:`, and no fault since `except: continue` skips the
record) together with the entries appended to the flat list.  On a fault
the already-appended flat entries persist (they were appended to
`self.data["my_messages"]` inside the loop) but the local `messages`
list is dropped. -/
def processDialog (myId cutoff : Int) (d : Dialog) : Option (String × ChatRecord) × List MyMsg :=
  let chatName := getChatName d.entity
  let chatType := getChatType d.entity
  if chatType == "bot" then (none, [])
  else
    let r := dialogLoop myId cutoff chatName chatType d.failAfter
      (pyTakeList MAX_MESSAGES_PER_CHAT d.msgs)
    if r.2.2.2 then (none, r.2.2.1)
    else if r.1.isEmpty then (none, r.2.2.1)
    else (some (chatName, ⟨chatType, r.1.length, r.2.1, r.1⟩), r.2.2.1)

/-- The mutable `self.data` built by `collect_messages` (the stats are
computed afterwards by `_calculate_stats`). -/
structure CollectData where
  chats : List (String × ChatRecord)
  my_messages : List MyMsg
deriving DecidableEq, Repr

/-- Folding one dialog into `self.data`. -/
def collectStep (myId cutoff : Int) (acc : CollectData) (d : Dialog) : CollectData :=
  match processDialog myId cutoff d with
  | (some (nm, cr), flat) => ⟨dictInsert nm cr acc.chats, acc.my_messages ++ flat⟩
  | (none, flat) => ⟨acc.chats, acc.my_messages ++ flat⟩

/-- Model of `collect_messages` over the dialog list returned by
`get_dialogs(limit=MAX_CHATS)` (the input is what the collaborator
returned, already capped at 50). -/
def collectMessages (myId cutoff : Int) (dialogs : List Dialog) : CollectData :=
  dialogs.foldl (collectStep myId cutoff) ⟨[], []⟩

/-- Whether iterating dialog `d` raises a fetch fault (a non-bot dialog
whose message loop reaches the iterator's fault position). -/
def dialogErrored (myId cutoff : Int) (d : Dialog) : Bool :=
  !(getChatType d.entity == "bot")
    && (dialogLoop myId cutoff (getChatName d.entity) (getChatType d.entity) d.failAfter
        (pyTakeList MAX_MESSAGES_PER_CHAT d.msgs)).2.2.2

/-- The flat `my_messages` entries contributed by one dialog. -/
def dialogFlat (myId cutoff : Int) (d : Dialog) : List MyMsg :=
  (processDialog myId cutoff d).2

/-- The stats mapping (`defaultdict(int)` plus the nested `top_chats`)
as an explicit record; the per-type counters are keyed by the very
strings the source builds (`"type_" + chat_type`), the per-hour counters
by the numeric part of `"hour_<h>"`.  Both are insertion-ordered. -/
structure Stats where
  total_my_messages : Nat
  typeCounts : List (String × Nat)
  hourCounts : List (Nat × Nat)
  top_chats : List (String × Nat)
deriving DecidableEq, Repr

/-- Ordering used for `top_chats`
(`sorted(..., key=lambda x: x[1], reverse=True)`): descending by count. -/
def descByCount (a b : String × Nat) : Prop := b.2 ≤ a.2

instance : DecidableRel descByCount := fun a b => Nat.decLe b.2 a.2

instance : IsTotal (String × Nat) descByCount := ⟨fun a b => Nat.le_total b.2 a.2⟩

instance : IsTrans (String × Nat) descByCount := ⟨fun _ _ _ hab hbc => Nat.le_trans hbc hab⟩

/-- The `chat_activity` dict of `_calculate_stats`. -/
def chatActivity (chats : List (String × ChatRecord)) : List (String × Nat) :=
  chats.foldl (fun acc p => dictInsert p.1 p.2.my_messages acc) []

/-- Model of `_calculate_stats`: counters over the flat `my_messages`
list, then `top_chats` as the stable descending sort of `chat_activity`
truncated to 10 entries.  Python `sorted` with `reverse=True` is a
stable descending sort, which is extensionally the stable insertion
sort under `descByCount`. -/
def calculateStats (data : CollectData) : Stats :=
  let st := data.my_messages.foldl
    (fun st m =>
      ⟨st.total_my_messages + 1,
        bumpStr ("type_" ++ m.chat_type) st.typeCounts,
        bumpNat m.hour st.hourCounts,
        st.top_chats⟩)
    (⟨0, [], [], []⟩ : Stats)
  ⟨st.total_my_messages, st.typeCounts, st.hourCounts,
    pyTakeList 10 (List.insertionSort descByCount (chatActivity data.chats))⟩

/-- Concrete dialog whose iterator yields one owned message and then
faults on the next fetch. -/
def faultyDialog : Dialog :=
  ⟨Entity.user 100 (some "Alice") none false,
    [⟨⟨10, 9, "2025-09-20T09:00:00"⟩, "hello", 1⟩,
     ⟨⟨9, 8, "2025-09-20T08:00:00"⟩, "again", 1⟩],
    some 1⟩

/-- Concrete dialog that completes normally with one owned message. -/
def normalDialog : Dialog :=
  ⟨Entity.user 200 (some "Bob") none false,
    [⟨⟨10, 10, "2025-09-20T10:00:00"⟩, "hi", 1⟩],
    none⟩

/-- Concrete input for the partial-fault scenario. -/
def c10Dialogs : List Dialog := [faultyDialog, normalDialog]

/-- Python `sep.join(parts)`. -/
def pyJoin (sep : String) : List String → String
  | [] => ""
  | [x] => x
  | x :: rest => x ++ sep ++ pyJoin sep rest

/-- Zero-padded two-digit decimal (`f"{hour:02d}"` for hours 0..23). -/
def pad2 (n : Nat) : String := if n < 10 then "0" ++ toString n else toString n

/-- Space-padded width-3 decimal (`f"{value:3d}"`). -/
def pad3 (n : Nat) : String :=
  (⟨List.replicate (3 - (toString n).length) ' '⟩ : String) ++ toString n

/-- Ascending-by-hour ordering used by `_format_hourly_stats`
(`sorted(hours.keys())`). -/
def ascByHour (a b : Nat × Nat) : Prop := a.1 ≤ b.1

instance : DecidableRel ascByHour := fun a b => Nat.decLe a.1 b.1

instance : IsTotal (Nat × Nat) ascByHour := ⟨fun a b => Nat.le_total a.1 b.1⟩

instance : IsTrans (Nat × Nat) ascByHour := ⟨fun _ _ _ => Nat.le_trans⟩

/-- Model of `_format_hourly_stats`: the hour-keyed counters sorted by
hour ascending, one line per hour, with one block character per 5
messages. -/
def formatHourlyStats (st : Stats) : String :=
  pyJoin "\n"
    ((List.insertionSort ascByHour st.hourCounts).map
      (fun p => pad2 p.1 ++ ":00 — " ++ pad3 p.2 ++ " " ++ (⟨List.replicate (p.2 / 5) '█'⟩ : String)))

/-- Hexadecimal digit (lower case). -/
def hexDigit (n : Nat) : Char := if n < 10 then Char.ofNat (48 + n) else Char.ofNat (87 + n)

/-- JSON escaping of one character as `json.dumps` does with
`ensure_ascii=False`: quote, backslash and control characters are
escaped, everything else is kept verbatim. -/
def jsonEscChar (c : Char) : String :=
  if c = '"' then "\\\""
  else if c = '\\' then "\\\\"
  else if c = '\n' then "\\n"
  else if c = '\r' then "\\r"
  else if c = '\t' then "\\t"
  else if c = '\x08' then "\\b"
  else if c = '\x0c' then "\\f"
  else if c.toNat < 32 then "\\u00" ++ (⟨[hexDigit (c.toNat / 16), hexDigit (c.toNat % 16)]⟩ : String)
  else (⟨[c]⟩ : String)

/-- JSON escaping of a whole string. -/
def jsonEscape (s : String) : String := String.join (s.data.map jsonEscChar)

/-- Model of `json.dumps(top_chats, indent=2, ensure_ascii=False)` for
the string-to-int `top_chats` mapping. -/
def jsonDumpsTopChats (tc : List (String × Nat)) : String :=
  match tc with
  | [] => "\x7b\x7d"
  | _ =>
    "\x7b\n"
      ++ pyJoin ",\n" (tc.map (fun p => "  \"" ++ jsonEscape p.1 ++ "\": " ++ toString p.2))
      ++ "\n\x7d"

/-- Model of `_prepare_analysis_data`: for each chat with at least one
owned message, a header line and at most the first 30 owned messages,
each rendered as `[date] text` with the text truncated to 200
characters; the joined transcript is truncated to 50,000 characters
after concatenation. -/
def prepareAnalysisData (data : CollectData) : String :=
  let result := data.chats.foldl
    (fun acc p =>
      let my_msgs := p.2.messages.filter (fun m => m.is_mine)
      if my_msgs.isEmpty then acc
      else
        let sample := if my_msgs.length > 30 then pyTakeList 30 my_msgs else my_msgs
        acc
          ++ ["\n### " ++ p.1 ++ " (" ++ p.2.type ++ ") — "
                ++ toString my_msgs.length ++ " сообщений"]
          ++ sample.map (fun m => "[" ++ pyTake 10 m.date ++ "] " ++ pyTake 200 m.text))
    []
  pyTake 50000 (pyJoin "\n" result)

/-- Fixed part of the analysis prompt before the total message count. -/
def promptHead1 : String :=
  "Ты — эксперт по продуктивности и бизнес-процессам. \nПроанализируй мою рабочую коммуникацию в Telegram за последний месяц.\n\n## ДАННЫЕ ДЛЯ АНАЛИЗА\n\n### Статистика\n- Всего моих сообщений: "

/-- Fixed prompt part before the personal-chat count. -/
def promptHead2 : String := "\n- В личных чатах: "

/-- Fixed prompt part before the group count. -/
def promptHead3 : String := "\n- В группах: "

/-- Fixed prompt part before the top-chats JSON. -/
def promptHead4 : String := "\n\n### Топ чатов по моей активности\n"

/-- Fixed prompt part before the hourly histogram. -/
def promptHead5 : String := "\n\n### Распределение по часам\n"

/-- Fixed prompt part before the transcript sample. -/
def promptHead6 : String := "\n\n### Примеры моих сообщений (сгруппированы по чатам)\n"

/-- Fixed tail of the analysis prompt (the task statement with the JSON
answer template; `\x7b`/`\x7d` denote the literal braces the f-string
writes for `\x7b\x7b`/`\x7d\x7d`). -/
def promptTail : String :=
  pyJoin "\n"
    ["", "", "---", "", "## ЗАДАЧА", "", "Сгенерируй комплексный отчёт в формате JSON:", "",
     "```json",
     "\x7b",
     "  \"executive_summary\": \"Краткое резюме (3-4 предложения)\",",
     "  ",
     "  \"time_analysis\": \x7b",
     "    \"peak_hours\": [\"часы наибольшей активности\"],",
     "    \"wasted_time_patterns\": [\"паттерны потери времени\"],",
     "    \"recommendations\": [\"рекомендации по тайм-менеджменту\"]",
     "  \x7d,",
     "  ",
     "  \"delegation_opportunities\": [",
     "    \x7b",
     "      \"task\": \"название задачи\",",
     "      \"current_time_spent\": \"оценка времени\",",
     "      \"can_delegate_to\": \"кому делегировать\",",
     "      \"priority\": \"high/medium/low\"",
     "    \x7d",
     "  ],",
     "  ",
     "  \"sop_candidates\": [",
     "    \x7b",
     "      \"process_name\": \"Название процесса\",",
     "      \"description\": \"Что это за процесс\",",
     "      \"steps\": [\"шаг 1\", \"шаг 2\", \"...\"],",
     "      \"triggers\": \"когда запускается\",",
     "      \"owner\": \"кто должен выполнять\",",
     "      \"tools_needed\": [\"инструменты\"]",
     "    \x7d",
     "  ],",
     "  ",
     "  \"communication_patterns\": \x7b",
     "    \"repetitive_explanations\": [\"что объясняешь повторно\"],",
     "    \"bottlenecks\": [\"где застревают процессы\"],",
     "    \"improvements\": [\"как улучшить коммуникацию\"]",
     "  \x7d,",
     "  ",
     "  \"automation_ideas\": [",
     "    \x7b",
     "      \"idea\": \"что автоматизировать\",",
     "      \"impact\": \"high/medium/low\",",
     "      \"implementation\": \"как реализовать\"",
     "    \x7d",
     "  ],",
     "  ",
     "  \"metrics\": \x7b",
     "    \"operational_vs_strategic\": \"X% / Y%\",",
     "    \"response_time_estimate\": \"оценка\",",
     "    \"context_switching\": \"оценка частоты переключений\"",
     "  \x7d,",
     "  ",
     "  \"action_plan\": [",
     "    \x7b",
     "      \"action\": \"конкретное действие\",",
     "      \"priority\": 1,",
     "      \"expected_result\": \"ожидаемый результат\"",
     "    \x7d",
     "  ]",
     "\x7d",
     "```",
     "",
     "Будь конкретным. Называй реальные чаты и задачи из данных.",
     "Фокусируйся на actionable insights, а не общих советах."]
    ++ "\n"

/-- Model of the prompt construction in `analyze_with_claude`: the full
f-string combining the counters, the top-chats JSON, the hourly
histogram, and the (separately truncated) transcript sample. -/
def buildPrompt (data : CollectData) (st : Stats) : String :=
  promptHead1 ++ toString st.total_my_messages
    ++ promptHead2 ++ toString (lookupD "type_personal" 0 st.typeCounts)
    ++ promptHead3 ++ toString (lookupD "type_group" 0 st.typeCounts
        + lookupD "type_supergroup" 0 st.typeCounts)
    ++ promptHead4 ++ jsonDumpsTopChats st.top_chats
    ++ promptHead5 ++ formatHourlyStats st
    ++ promptHead6 ++ prepareAnalysisData data
    ++ promptTail

/-- A 60,000-character chat title (an entity title is not truncated
anywhere in the pipeline). -/
def bigName : String := ⟨List.replicate 60000 'a'⟩

/-- Concrete collected data whose transcript sample saturates the
50,000-character budget thanks to the untruncated chat title. -/
def c7Data : CollectData :=
  ⟨[(bigName, ⟨"personal", 1, 1, [⟨"2025-09-20T09:00:00", "hi", true, 9⟩]⟩)],
   [⟨bigName, "personal", "2025-09-20T09:00:00", "hi", true, 9⟩]⟩

/-- Python `str.find(c)`: index of the first occurrence, `-1` if none. -/
def strFind (c : Char) (s : String) : Int :=
  match s.data.findIdx? (· == c) with
  | some i => (i : Int)
  | none => -1

/-- Python `str.rfind(c)`: index of the last occurrence, `-1` if none. -/
def strRfind (c : Char) (s : String) : Int :=
  match s.data.reverse.findIdx? (· == c) with
  | some i => ((s.data.length - 1 - i : Nat) : Int)
  | none => -1

/-- Python slice `s[a:b]` for the non-negative bounds the parser uses. -/
def pySlice (s : String) (a b : Int) : String :=
  ⟨(s.data.take b.toNat).drop a.toNat⟩

/-- Result of `_parse_claude_response`: either the decoded document or
the degraded `\x7b"raw_response": text\x7d` wrapper. -/
inductive ClaudeResp (J : Type) where
  | parsed (v : J)
  | rawResponse (text : String)
deriving DecidableEq

/-- The degraded form's sentinel field (`result["raw_response"]`). -/
def rawTextOf {J : Type} : ClaudeResp J → Option String
  | .parsed _ => none
  | .rawResponse t => some t

/-- Model of `_parse_claude_response`.  The external `json.loads` is a
function argument returning `none` exactly when it would raise
`json.JSONDecodeError` on that input; the `try` block catches that
failure, and any fall-through returns the raw wrapper. -/
def parseClaudeResponse {J : Type} (loads : String → Option J) (text : String) : ClaudeResp J :=
  let start := strFind '\x7b' text
  let stop := strRfind '\x7d' text + 1
  if start ≠ -1 ∧ stop > start then
    match loads (pySlice text start stop) with
    | some v => ClaudeResp.parsed v
    | none => ClaudeResp.rawResponse text
  else ClaudeResp.rawResponse text

/-- Time-analysis sub-document of the model's reply. -/
structure TimeAnalysis where
  peak_hours : Option (List String)
  wasted_time_patterns : Option (List String)
  recommendations : Option (List String)
deriving DecidableEq

/-- One delegation-opportunity record. -/
structure DelegationItem where
  task : Option String
  current_time_spent : Option String
  can_delegate_to : Option String
  priority : Option String
deriving DecidableEq

/-- One SOP/procedure record. -/
structure SopItem where
  process_name : Option String
  description : Option String
  steps : Option (List String)
  triggers : Option String
  owner : Option String
  tools_needed : Option (List String)
deriving DecidableEq

/-- Communication-pattern sub-document. -/
structure CommunicationPatterns where
  repetitive_explanations : Option (List String)
  bottlenecks : Option (List String)
  improvements : Option (List String)
deriving DecidableEq

/-- Metrics sub-document. -/
structure MetricsDoc where
  operational_vs_strategic : Option String
  response_time_estimate : Option String
  context_switching : Option String
deriving DecidableEq

/-- One automation-idea record. -/
structure AutomationIdea where
  idea : Option String
  impact : Option String
  implementation : Option String
deriving DecidableEq

/-- One prioritized action record (`priority` is rendered through
`str()`, so it is modelled as its rendered text). -/
structure ActionItem where
  action : Option String
  priority : Option String
  expected_result : Option String
deriving DecidableEq

/-- The loosely-typed analysis document: every sub-field may be absent.
The degraded form produced on parse failure has every structured field
absent and only `raw_response` set. -/
structure Analysis where
  executive_summary : Option String
  time_analysis : Option TimeAnalysis
  delegation_opportunities : Option (List DelegationItem)
  sop_candidates : Option (List SopItem)
  communication_patterns : Option CommunicationPatterns
  automation_ideas : Option (List AutomationIdea)
  metrics : Option MetricsDoc
  action_plan : Option (List ActionItem)
  raw_response : Option String
deriving DecidableEq

/-- The degraded analysis document (`\x7b"raw_response": text\x7d`). -/
def degradedAnalysis (text : String) : Analysis :=
  ⟨none, none, none, none, none, none, none, none, some text⟩

/-- An analysis document whose SOP list holds a single record with
every field absent — in particular a missing `steps` list. -/
def sopOnlyAnalysis : Analysis :=
  ⟨none, none, none, some [⟨none, none, none, none, none, none⟩], none, none, none, none, none⟩

/-- `analysis.get('time_analysis', \x7b\x7d).get('peak_hours', ['N/A'])`. -/
def peakHoursOf (a : Analysis) : List String :=
  match a.time_analysis with
  | some ta => ta.peak_hours.getD ["N/A"]
  | none => ["N/A"]

/-- `analysis.get('time_analysis', \x7b\x7d).get('wasted_time_patterns', [])`. -/
def wastedOf (a : Analysis) : List String :=
  match a.time_analysis with
  | some ta => ta.wasted_time_patterns.getD []
  | none => []

/-- `analysis.get('metrics', \x7b\x7d).get('operational_vs_strategic', 'N/A')`. -/
def metricOpsOf (a : Analysis) : String :=
  match a.metrics with
  | some m => m.operational_vs_strategic.getD "N/A"
  | none => "N/A"

/-- `analysis.get('metrics', \x7b\x7d).get('context_switching', 'N/A')`. -/
def metricCtxOf (a : Analysis) : String :=
  match a.metrics with
  | some m => m.context_switching.getD "N/A"
  | none => "N/A"

/-- Model of `_format_tg_list`. -/
def formatTgList (items : List String) : String :=
  if items.isEmpty then "• Нет данных"
  else pyJoin "\n" (items.map (fun item => "• " ++ item))

/-- Model of `_format_tg_numbered`. -/
def formatTgNumbered (items : List String) : String :=
  if items.isEmpty then "Нет шагов"
  else pyJoin "\n" ((List.enumFrom 1 items).map (fun p => toString p.1 ++ ". " ++ p.2))

/-- The priority-emoji lookup with its `"⚪"` default. -/
def priorityEmoji (p : String) : String :=
  if p = "high" then "🔴" else if p = "medium" then "🟡" else if p = "low" then "🟢" else "⚪"

/-- The impact-emoji lookup with its `"💡"` default. -/
def impactEmoji (p : String) : String :=
  if p = "high" then "🔥" else if p = "medium" then "⚡" else if p = "low" then "💡" else "💡"

/-- The six fragment groups returned by `format_telegram_report`. -/
structure Reports where
  main : String
  delegation : String
  sops : List String
  actions : String
  automation : String
  top_chats : String
deriving DecidableEq

/-- Model of `format_telegram_report`: a pure function of the stats and
the (possibly degraded) analysis document. -/
def formatTelegramReport (st : Stats) (analysis : Analysis) : Reports :=
  let main_report :=
    "📊 <b>АНАЛИЗ КОММУНИКАЦИИ</b>\n<i>Период: " ++ toString DAYS_TO_ANALYZE
      ++ " дней</i>\n\n"
      ++ analysis.executive_summary.getD "Нет данных"
      ++ "\n\n━━━━━━━━━━━━━━━\n\n📈 <b>СТАТИСТИКА</b>\n• Всего сообщений: <code>"
      ++ toString st.total_my_messages
      ++ "</code>\n• Личные чаты: <code>"
      ++ toString (lookupD "type_personal" 0 st.typeCounts)
      ++ "</code>\n• Группы: <code>"
      ++ toString (lookupD "type_group" 0 st.typeCounts + lookupD "type_supergroup" 0 st.typeCounts)
      ++ "</code>\n\n━━━━━━━━━━━━━━━\n\n⏰ <b>ВРЕМЯ</b>\nПики: "
      ++ pyJoin ", " (pyTakeList 3 (peakHoursOf analysis))
      ++ "\n\nПотери времени:\n"
      ++ formatTgList (pyTakeList 3 (wastedOf analysis))
      ++ "\n\n━━━━━━━━━━━━━━━\n\n📊 <b>МЕТРИКИ</b>\n• Операционка/Стратегия: "
      ++ metricOpsOf analysis
      ++ "\n• Переключение контекста: "
      ++ metricCtxOf analysis
      ++ "\n"
  let delegation_msg := (pyTakeList 5 (analysis.delegation_opportunities.getD [])).foldl
    (fun acc item =>
      acc ++ priorityEmoji (item.priority.getD "") ++ " <b>" ++ item.task.getD "" ++ "</b>\n"
        ++ "   → " ++ item.can_delegate_to.getD "не указано" ++ "\n"
        ++ "   ⏱ " ++ item.current_time_spent.getD "" ++ "\n\n")
    "🎯 <b>ДЕЛЕГИРОВАТЬ</b>\n\n"
  let sop_messages := (List.enumFrom 1 (pyTakeList 5 (analysis.sop_candidates.getD []))).map
    (fun p =>
      "📋 <b>SOP #" ++ toString p.1 ++ ": " ++ p.2.process_name.getD "Процесс" ++ "</b>\n\n"
        ++ p.2.description.getD "" ++ "\n\n<b>Триггер:</b> "
        ++ p.2.triggers.getD "не указан" ++ "\n<b>Владелец:</b> "
        ++ p.2.owner.getD "не назначен" ++ "\n\n<b>Шаги:</b>\n"
        ++ formatTgNumbered (p.2.steps.getD []) ++ "\n\n<b>Инструменты:</b> "
        ++ pyJoin ", " (p.2.tools_needed.getD []) ++ "\n")
  let action_msg := (pyTakeList 7 (analysis.action_plan.getD [])).foldl
    (fun acc item =>
      acc ++ "<b>[" ++ item.priority.getD "?" ++ "]</b> " ++ item.action.getD "" ++ "\n"
        ++ "    <i>→ " ++ item.expected_result.getD "" ++ "</i>\n\n")
    "🚀 <b>ACTION PLAN</b>\n\n"
  let auto_msg := (pyTakeList 5 (analysis.automation_ideas.getD [])).foldl
    (fun acc item =>
      acc ++ impactEmoji (item.impact.getD "") ++ " <b>" ++ item.idea.getD "" ++ "</b>\n"
        ++ "   <i>" ++ item.implementation.getD "" ++ "</i>\n\n")
    "🤖 <b>АВТОМАТИЗИРОВАТЬ</b>\n\n"
  let top_msg := (pyTakeList 10 st.top_chats).foldl
    (fun acc p => acc ++ "• <b>" ++ p.1 ++ "</b>: " ++ toString p.2 ++ "\n")
    "💬 <b>ТОП-10 ЧАТОВ</b>\n\n"
  ⟨main_report, delegation_msg, sop_messages, action_msg, auto_msg, top_msg⟩

/-- Environment configuration (the module-level constants). -/
structure Config where
  apiId : Int
  apiHash : String
  sessionString : String
  anthropicKey : String
  botToken : String
  chatId : String
deriving DecidableEq

/-- What the program does before its first network call. -/
inductive Startup where
  | configError (msg : String)
  | networkConnect
deriving DecidableEq

/-- Model of the pre-flight path: `TelegramWorkAnalyzer.__init__`
raises `ValueError` on missing Telegram credentials; once it returns,
`run()` proceeds straight to `self.client.connect()`, the first network
activity.  The Anthropic key is merely stored —
`anthropic.Anthropic(api_key=...)` does not validate a non-`None`
key — so it is not examined before network activity begins. -/
def analyzerStartup (c : Config) : Startup :=
  if c.apiId = 0 ∨ c.apiHash = "" then
    Startup.configError "TELEGRAM_API_ID и TELEGRAM_API_HASH обязательны!"
  else if c.sessionString = "" then
    Startup.configError "SESSION_STRING обязателен!"
  else Startup.networkConnect

/-- Outcome of one `client.post` call: HTTP 200, a non-200 response, or
a raised transport exception. -/
inductive SendOutcome where
  | ok
  | httpErr
  | exn
deriving DecidableEq

/-- The per-fragment loop of `send_via_bot`: every fragment is posted
(truncated to 4096 characters) inside `try`; success, non-success
response and exception only differ in logging, and the loop always
continues.  Returns the posted texts with their outcomes, and the next
transport call index. -/
def sendLoop (transport : Nat → SendOutcome) :
    Nat → List String → List (String × SendOutcome) × Nat
  | idx, [] => ([], idx)
  | idx, t :: ts =>
      let r := sendLoop transport (idx + 1) ts
      ((pyTake 4096 t, transport idx) :: r.1, r.2)

/-- Model of `send_via_bot`: nothing is sent when the bot credentials
are missing; otherwise the five main fragments and then the SOP
fragments are posted continue-on-error, and the final acknowledgement
is posted unconditionally afterwards (outside any `try`, so only its
own exception propagates, to be caught at `run`'s boundary). -/
def sendViaBot (botToken chatId : String) (reports : Reports) (ackText : String)
    (transport : Nat → SendOutcome) : List (String × SendOutcome) × Bool :=
  if botToken = "" ∨ chatId = "" then ([], false)
  else
    let r1 := sendLoop transport 0
      [reports.main, reports.delegation, reports.actions, reports.automation, reports.top_chats]
    let r2 := sendLoop transport r1.2 reports.sops
    let fo := transport r2.2
    (r1.1 ++ r2.1 ++ [(ackText, fo)], fo == SendOutcome.exn)

end TgAnalyzer

namespace TgAnalyzer

/-- Appending to a nonempty literal never yields the empty string. -/
theorem append_ne_empty_of_left_ne_empty (s t : String) (h : s ≠ "") : s ++ t ≠ "" := by
  intro hc
  apply h
  have hl := congrArg String.length hc
  rw [String.length_append] at hl
  have h0 : ("" : String).length = 0 := rfl
  rw [h0] at hl
  have hs : s.length = 0 := by omega
  cases s with
  | mk data =>
    cases data with
    | nil => rfl
    | cons c cs => simp [String.length] at hs

/-- C1, counterexample: a non-person entity whose `title` attribute is
present but empty makes `_get_chat_name` return the empty display name,
so the classifier does not always return a non-empty display name. -/
theorem C1_counterexample : getChatName (Entity.chat 7 (some "")) = "" := rfl

/-- C1, amended: a person's display name is always non-empty (trimmed
concatenated given+family name, or the synthesized `User_<id>`); a
non-person entity with an absent `title` attribute gets the non-empty
synthesized `Chat_<id>`; but a non-person entity with a present `title`
gets that title verbatim, which is empty exactly when the title is empty. -/
theorem C1_amended :
    (∀ id fn ln b, getChatName (Entity.user id fn ln b) ≠ "")
    ∧ (∀ id, getChatName (Entity.chat id none) = "Chat_" ++ toString id
        ∧ getChatName (Entity.chat id none) ≠ "")
    ∧ (∀ id mg, getChatName (Entity.channel id none mg) = "Chat_" ++ toString id
        ∧ getChatName (Entity.channel id none mg) ≠ "")
    ∧ (∀ id, getChatName (Entity.other id none) = "Chat_" ++ toString id
        ∧ getChatName (Entity.other id none) ≠ "")
    ∧ (∀ id t, getChatName (Entity.chat id (some t)) = t)
    ∧ (∀ id t mg, getChatName (Entity.channel id (some t) mg) = t)
    ∧ (∀ id t, getChatName (Entity.other id (some t)) = t) := by
  refine ⟨?_, ?_, ?_, ?_, ?_, ?_, ?_⟩
  · intro id fn ln b
    have key : ∀ st : String, (if st == "" then "User_" ++ toString id else st) ≠ "" := by
      intro st
      by_cases h : st = ""
      · simpa [h] using append_ne_empty_of_left_ne_empty "User_" (toString id) (by decide)
      · simp [h]
    show (if (pyStrip (if pyTruthy ln then fn.getD "" ++ " " ++ ln.getD "" else fn.getD "") == "")
        then "User_" ++ toString id
        else pyStrip (if pyTruthy ln then fn.getD "" ++ " " ++ ln.getD "" else fn.getD "")) ≠ ""
    exact key _
  · intro id
    exact ⟨rfl, append_ne_empty_of_left_ne_empty "Chat_" (toString id) (by decide)⟩
  · intro id mg
    exact ⟨rfl, append_ne_empty_of_left_ne_empty "Chat_" (toString id) (by decide)⟩
  · intro id
    exact ⟨rfl, append_ne_empty_of_left_ne_empty "Chat_" (toString id) (by decide)⟩
  · intro id t; rfl
  · intro id t mg; rfl
  · intro id t; rfl

/-- The per-dialog message loop keeps `my_messages_count` equal to the
number of collected messages whose ownership flag is set. -/
theorem dialogLoop_count (myId cutoff : Int) (name ty : String) :
    ∀ (fa : Option Nat) (stream : List RawMsg),
      (dialogLoop myId cutoff name ty fa stream).2.1
        = ((dialogLoop myId cutoff name ty fa stream).1.filter (fun m => m.is_mine)).length := by
  intro fa stream
  induction stream generalizing fa with
  | nil => simp [dialogLoop]
  | cons m rest ih =>
    by_cases hfa : fa = some 0
    · simp [dialogLoop, hfa]
    · by_cases hd : m.date.ts < cutoff
      · simp [dialogLoop, hfa, hd]
      · by_cases ht : m.text == ""
        · simpa [dialogLoop, hfa, hd, ht] using ih (fa.map (· - 1))
        · by_cases hs : m.sender_id == myId
          · simp [dialogLoop, hfa, hd, ht, hs, ih (fa.map (· - 1))]
          · simp [dialogLoop, hfa, hd, ht, hs, ih (fa.map (· - 1))]

/-- A chat entry produced by `processDialog` satisfies the owned-count
invariant. -/
theorem processDialog_entry_good (myId cutoff : Int) (d : Dialog) (nm : String) (cr : ChatRecord)
    (h : (processDialog myId cutoff d).1 = some (nm, cr)) :
    cr.my_messages = (cr.messages.filter (fun m => m.is_mine)).length := by
  simp only [processDialog] at h
  split at h
  · simp at h
  · split at h
    · simp at h
    · split at h
      · simp at h
      · simp only [Option.some.injEq, Prod.mk.injEq] at h
        obtain ⟨-, h2⟩ := h
        subst h2
        simpa using dialogLoop_count myId cutoff (getChatName d.entity) (getChatType d.entity)
          d.failAfter (pyTakeList MAX_MESSAGES_PER_CHAT d.msgs)

/-- Membership after a Python-style dict assignment. -/
theorem mem_dictInsert {β : Type} {k : String} {v : β} :
    ∀ {l : List (String × β)} {p : String × β}, p ∈ dictInsert k v l → p = (k, v) ∨ p ∈ l := by
  intro l
  induction l with
  | nil => intro p h; simp [dictInsert] at h; exact Or.inl h
  | cons q rest ih =>
    intro p h
    obtain ⟨k', v'⟩ := q
    simp only [dictInsert] at h
    split at h
    · rcases List.mem_cons.mp h with h1 | h2
      · exact Or.inl h1
      · exact Or.inr (List.mem_cons_of_mem _ h2)
    · rcases List.mem_cons.mp h with h1 | h2
      · exact Or.inr (h1 ▸ List.mem_cons_self _ _)
      · rcases ih h2 with h3 | h4
        · exact Or.inl h3
        · exact Or.inr (List.mem_cons_of_mem _ h4)

/-- C4: every chat record stored by the collector counts as
`my_messages` exactly the number of its contained messages whose
ownership flag is set. -/
theorem C4_owned_count (myId cutoff : Int) (dialogs : List Dialog)
    (name : String) (cr : ChatRecord)
    (h : (name, cr) ∈ (collectMessages myId cutoff dialogs).chats) :
    cr.my_messages = (cr.messages.filter (fun m => m.is_mine)).length := by
  suffices H : ∀ (ds : List Dialog) (acc : CollectData),
      (∀ q ∈ acc.chats, q.2.my_messages = (q.2.messages.filter (fun m => m.is_mine)).length) →
      ∀ q ∈ (ds.foldl (collectStep myId cutoff) acc).chats,
        q.2.my_messages = (q.2.messages.filter (fun m => m.is_mine)).length by
    exact H dialogs ⟨[], []⟩ (by intro q hq; simp at hq) (name, cr) h
  intro ds
  induction ds with
  | nil => intro acc hacc; simpa using hacc
  | cons d rest ih =>
    intro acc hacc
    rw [List.foldl_cons]
    refine ih _ ?_
    intro q hq
    rcases hpd : processDialog myId cutoff d with ⟨entry, flat⟩
    rcases entry with - | ⟨nm, cr'⟩
    · rw [collectStep, hpd] at hq
      exact hacc q hq
    · rw [collectStep, hpd] at hq
      rcases mem_dictInsert hq with h1 | h2
      · subst h1
        exact processDialog_entry_good myId cutoff d nm cr' (by rw [hpd])
      · exact hacc q h2

/-- C4 witness: a concrete collected chat record satisfying the
owned-count invariant. -/
theorem C4_owned_count_witness :
    ("Bob", (⟨"personal", 1, 1, [⟨"2025-09-20T10:00:00", "hi", true, 10⟩]⟩ : ChatRecord))
        ∈ (collectMessages 1 0 c10Dialogs).chats
    ∧ (1 : Nat)
        = (([⟨"2025-09-20T10:00:00", "hi", true, 10⟩] : List Msg).filter (fun m => m.is_mine)).length := by
  constructor
  · decide
  · exact C4_owned_count 1 0 c10Dialogs "Bob"
      ⟨"personal", 1, 1, [⟨"2025-09-20T10:00:00", "hi", true, 10⟩]⟩ (by decide)

/-- `collectStep` only ever appends that dialog's contribution to the
flat list, and updates the chats map from the dialog's optional entry. -/
theorem collectStep_eq (myId cutoff : Int) (acc : CollectData) (d : Dialog) :
    collectStep myId cutoff acc d
      = ⟨(match (processDialog myId cutoff d).1 with
          | some (nm, cr) => dictInsert nm cr acc.chats
          | none => acc.chats),
          acc.my_messages ++ dialogFlat myId cutoff d⟩ := by
  rcases hpd : processDialog myId cutoff d with ⟨entry, flat⟩
  rcases entry with - | ⟨nm, cr⟩ <;> simp [collectStep, hpd, dialogFlat]

/-- The flat list accumulated by the collector fold is the concatenation
of the per-dialog contributions. -/
theorem foldl_my_messages (myId cutoff : Int) :
    ∀ (ds : List Dialog) (acc : CollectData),
      (ds.foldl (collectStep myId cutoff) acc).my_messages
        = acc.my_messages ++ (ds.map (dialogFlat myId cutoff)).flatten := by
  intro ds
  induction ds with
  | nil => intro acc; simp
  | cons d rest ih =>
    intro acc
    rw [List.foldl_cons, ih, collectStep_eq]
    simp

/-- The chats map accumulated by the collector fold depends only on the
accumulator's chats map. -/
theorem foldl_chats_congr (myId cutoff : Int) :
    ∀ (ds : List Dialog) (acc acc' : CollectData), acc.chats = acc'.chats →
      (ds.foldl (collectStep myId cutoff) acc).chats
        = (ds.foldl (collectStep myId cutoff) acc').chats := by
  intro ds
  induction ds with
  | nil => intro acc acc' h; simpa using h
  | cons d rest ih =>
    intro acc acc' h
    rw [List.foldl_cons, List.foldl_cons]
    apply ih
    rw [collectStep_eq, collectStep_eq]
    simp [h]

/-- An errored dialog yields no chat entry. -/
theorem processDialog_none_of_errored (myId cutoff : Int) (d : Dialog)
    (h : dialogErrored myId cutoff d = true) :
    (processDialog myId cutoff d).1 = none := by
  unfold dialogErrored at h
  rw [Bool.and_eq_true] at h
  obtain ⟨hbot, herr⟩ := h
  simp only [processDialog]
  rw [if_neg (by simpa using hbot), if_pos herr]

/-- C5: a fetch fault inside one dialog's message iteration is caught:
that dialog contributes no chat record, the chats map is exactly the one
obtained by collecting the remaining dialogs without the faulty one, and
only the faulty dialog's partial flat entries are interposed — the fault
never aborts collection of the remaining dialogs. -/
theorem C5_fetch_error_skips (myId cutoff : Int) (pre post : List Dialog) (d : Dialog)
    (h : dialogErrored myId cutoff d = true) :
    (processDialog myId cutoff d).1 = none
    ∧ (collectMessages myId cutoff (pre ++ d :: post)).chats
        = (collectMessages myId cutoff (pre ++ post)).chats
    ∧ (collectMessages myId cutoff (pre ++ d :: post)).my_messages
        = (collectMessages myId cutoff pre).my_messages
          ++ dialogFlat myId cutoff d
          ++ (post.map (dialogFlat myId cutoff)).flatten := by
  have hnone := processDialog_none_of_errored myId cutoff d h
  refine ⟨hnone, ?_, ?_⟩
  · unfold collectMessages
    rw [List.foldl_append, List.foldl_append, List.foldl_cons]
    apply foldl_chats_congr
    rw [collectStep_eq, hnone]
  · unfold collectMessages
    rw [List.foldl_append, List.foldl_cons, foldl_my_messages, collectStep_eq]

/-- C5 witness: the concrete faulting dialog placed before a normal
dialog, which is still collected. -/
theorem C5_fetch_error_skips_witness :
    dialogErrored 1 0 faultyDialog = true
    ∧ (collectMessages 1 0 ([] ++ faultyDialog :: [normalDialog])).chats
        = (collectMessages 1 0 ([] ++ [normalDialog])).chats := by
  refine ⟨by decide, ?_⟩
  exact (C5_fetch_error_skips 1 0 [] [normalDialog] faultyDialog (by decide)).2.1

/-- C10: a mid-dialog fetch fault retains the flat owned messages
already appended while the dialog receives no chat record, so the
collected result can hold a flat owned message whose chat name is
absent from the chats mapping, with the total owned count exceeding the
sum of the per-chat owned counts. -/
theorem C10_partial_fault :
    ((collectMessages 1 0 c10Dialogs).chats.map (fun p => p.2.my_messages)).sum
        < (calculateStats (collectMessages 1 0 c10Dialogs)).total_my_messages
    ∧ ∃ m ∈ (collectMessages 1 0 c10Dialogs).my_messages,
        ∀ q ∈ (collectMessages 1 0 c10Dialogs).chats, q.1 ≠ m.chat := by
  decide

/-- The aggregated `top_chats` field is the truncated stable sort. -/
theorem calculateStats_top_chats (data : CollectData) :
    (calculateStats data).top_chats
      = pyTakeList 10 (List.insertionSort descByCount (chatActivity data.chats)) := rfl

/-- Filtering a fixed count through a descending ordered insert either
prepends the inserted pair (when it carries that count) or leaves the
filter unchanged — no pair with the same count is ever jumped over. -/
theorem filter_orderedInsert_descByCount (c : Nat) (x : String × Nat) :
    ∀ l : List (String × Nat),
      (List.orderedInsert descByCount x l).filter (fun p => p.2 == c)
        = if x.2 == c then x :: l.filter (fun p => p.2 == c)
          else l.filter (fun p => p.2 == c) := by
  intro l
  induction l with
  | nil => by_cases hx : x.2 == c <;> simp [List.orderedInsert, List.filter_cons, hx]
  | cons b rest ih =>
    simp only [List.orderedInsert]
    by_cases hr : descByCount x b
    · rw [if_pos hr]
      by_cases hx : x.2 == c <;> simp [List.filter_cons, hx]
    · rw [if_neg hr]
      by_cases hx : x.2 == c
      · have hxc : x.2 = c := by simpa using hx
        have hbc : ¬ (b.2 = c) := by
          intro hbc
          exact hr (by simp [descByCount, hbc, hxc])
        simp [List.filter_cons, hx, hbc, ih]
      · simp [List.filter_cons, hx, ih]

/-- Stability of the descending sort: filtering any fixed count is
unchanged by sorting, i.e. equal-count entries keep their original
relative order. -/
theorem filter_insertionSort_descByCount (c : Nat) :
    ∀ l : List (String × Nat),
      (List.insertionSort descByCount l).filter (fun p => p.2 == c)
        = l.filter (fun p => p.2 == c) := by
  intro l
  induction l with
  | nil => rfl
  | cons x rest ih =>
    simp only [List.insertionSort]
    rw [filter_orderedInsert_descByCount, ih]
    by_cases hx : x.2 == c <;> simp [List.filter_cons, hx]

/-- C3: the aggregated `top_chats` mapping has at most 10 entries, its
owned-message counts are non-increasing, and entries with equal counts
keep the original `chat_activity` iteration order (the fixed-count
filter of the top mapping is a prefix of the same filter of
`chat_activity`). -/
theorem C3_top_chats (data : CollectData) :
    (calculateStats data).top_chats.length ≤ 10
    ∧ List.Sorted descByCount (calculateStats data).top_chats
    ∧ ∀ c : Nat,
        (calculateStats data).top_chats.filter (fun p => p.2 == c)
          <+: (chatActivity data.chats).filter (fun p => p.2 == c) := by
  refine ⟨?_, ?_, ?_⟩
  · rw [calculateStats_top_chats]
    show (List.take 10 _).length ≤ 10
    rw [List.length_take]
    exact min_le_left _ _
  · rw [calculateStats_top_chats]
    exact List.Pairwise.sublist (List.take_sublist 10 _)
      (List.sorted_insertionSort descByCount (chatActivity data.chats))
  · intro c
    rw [calculateStats_top_chats]
    rw [← filter_insertionSort_descByCount c (chatActivity data.chats)]
    have hsplit : (List.insertionSort descByCount (chatActivity data.chats)).filter
          (fun p => p.2 == c)
        = (pyTakeList 10 (List.insertionSort descByCount (chatActivity data.chats))).filter
            (fun p => p.2 == c)
          ++ (List.drop 10 (List.insertionSort descByCount (chatActivity data.chats))).filter
              (fun p => p.2 == c) := by
      show _ = (List.take 10 _).filter _ ++ (List.drop 10 _).filter _
      rw [← List.filter_append, List.take_append_drop]
    rw [hsplit]
    exact List.prefix_append _ _

/-- Truncation bound for Python slicing. -/
theorem pyTake_length_le (n : Nat) (s : String) : (pyTake n s).length ≤ n := by
  show (s.data.take n).length ≤ n
  rw [List.length_take]
  exact min_le_left _ _

/-- Exact truncated length for Python slicing of a long enough string. -/
theorem pyTake_length_eq (n : Nat) (s : String) (h : n ≤ s.length) :
    (pyTake n s).length = n := by
  show (s.data.take n).length = n
  rw [List.length_take]
  exact min_eq_left h

/-- C7, amended: the per-chat transcript sample built by
`_prepare_analysis_data` is truncated, after concatenation and at the
character level, to at most 50,000 characters — for arbitrarily large
collected input. -/
theorem C7_amended (data : CollectData) : (prepareAnalysisData data).length ≤ 50000 := by
  show (pyTake 50000 _).length ≤ 50000
  exact pyTake_length_le 50000 _

/-- C7, counterexample: the full prompt handed to the model is not
bounded by 50,000 characters — on `c7Data` the transcript sample alone
saturates its 50,000-character budget and the surrounding template
pushes the prompt strictly beyond 50,000. -/
theorem C7_counterexample :
    50000 < (buildPrompt c7Data (calculateStats c7Data)).length := by
  have hbig : bigName.length = 60000 := by
    show (List.replicate 60000 'a').length = 60000
    exact List.length_replicate 60000 'a'
  have hdata : prepareAnalysisData c7Data
      = pyTake 50000 (pyJoin "\n"
          ["\n### " ++ bigName ++ " (" ++ "personal" ++ ") — "
              ++ toString (1 : Nat) ++ " сообщений",
           "[" ++ pyTake 10 "2025-09-20T09:00:00" ++ "] " ++ pyTake 200 "hi"]) := by
    rfl
  have hjoin : 50000 ≤ (pyJoin "\n"
      ["\n### " ++ bigName ++ " (" ++ "personal" ++ ") — "
          ++ toString (1 : Nat) ++ " сообщений",
       "[" ++ pyTake 10 "2025-09-20T09:00:00" ++ "] " ++ pyTake 200 "hi"]).length := by
    have hj : pyJoin "\n"
        ["\n### " ++ bigName ++ " (" ++ "personal" ++ ") — "
            ++ toString (1 : Nat) ++ " сообщений",
         "[" ++ pyTake 10 "2025-09-20T09:00:00" ++ "] " ++ pyTake 200 "hi"]
        = ("\n### " ++ bigName ++ " (" ++ "personal" ++ ") — "
            ++ toString (1 : Nat) ++ " сообщений") ++ "\n"
          ++ ("[" ++ pyTake 10 "2025-09-20T09:00:00" ++ "] " ++ pyTake 200 "hi") := rfl
    rw [hj]
    simp only [String.length_append]
    rw [hbig]
    omega
  have hlen : (prepareAnalysisData c7Data).length = 50000 := by
    rw [hdata]
    exact pyTake_length_eq 50000 _ hjoin
  have htail : 0 < promptTail.length := by
    unfold promptTail
    rw [String.length_append]
    have h1 : ("\n" : String).length = 1 := rfl
    rw [h1]
    omega
  unfold buildPrompt
  simp only [String.length_append]
  omega

/-- A character-free scan means `str.find` reports no occurrence. -/
theorem strFind_eq_neg_one {c : Char} {s : String} (h : ∀ x ∈ s.data, x ≠ c) :
    strFind c s = -1 := by
  unfold strFind
  have hn : s.data.findIdx? (· == c) = none := by
    rw [List.findIdx?_eq_none_iff]
    intro x hx
    simpa using h x hx
  rw [hn]

/-- C2: the response parser is total (it always returns either the
decoded document or the raw wrapper around the whole input); when the
first opening brace precedes the last closing brace and the enclosed
slice decodes, it returns the decoded document; on a missing or
inverted brace pair, or a decoder failure, it returns the raw wrapper;
and a brace-free text degrades to its own raw wrapper, which re-parses
to itself (idempotence). -/
theorem C2_parser_spec {J : Type} (loads : String → Option J) (text : String) :
    ((∃ v, parseClaudeResponse loads text = ClaudeResp.parsed v)
      ∨ parseClaudeResponse loads text = ClaudeResp.rawResponse text)
    ∧ (∀ i j : Nat, strFind '\x7b' text = (i : Int) → strRfind '\x7d' text = (j : Int) →
        i < j → ∀ v, loads (pySlice text (i : Int) ((j : Int) + 1)) = some v →
          parseClaudeResponse loads text = ClaudeResp.parsed v)
    ∧ ((strFind '\x7b' text = -1
          ∨ strRfind '\x7d' text + 1 ≤ strFind '\x7b' text
          ∨ loads (pySlice text (strFind '\x7b' text) (strRfind '\x7d' text + 1)) = none) →
        parseClaudeResponse loads text = ClaudeResp.rawResponse text)
    ∧ ((∀ ch ∈ text.data, ch ≠ '\x7b' ∧ ch ≠ '\x7d') →
        parseClaudeResponse loads text = ClaudeResp.rawResponse text
        ∧ parseClaudeResponse loads ((rawTextOf (parseClaudeResponse loads text)).getD "")
            = parseClaudeResponse loads text) := by
  refine ⟨?_, ?_, ?_, ?_⟩
  · simp only [parseClaudeResponse]
    by_cases hcond : (strFind '\x7b' text ≠ -1
        ∧ strRfind '\x7d' text + 1 > strFind '\x7b' text)
    · rw [if_pos hcond]
      rcases hl : loads (pySlice text (strFind '\x7b' text) (strRfind '\x7d' text + 1)) with - | v
      · exact Or.inr rfl
      · exact Or.inl ⟨v, rfl⟩
    · rw [if_neg hcond]
      exact Or.inr rfl
  · intro i j hi hj hij v hv
    simp only [parseClaudeResponse]
    rw [hi, hj]
    rw [if_pos ⟨by omega, by omega⟩]
    rw [hv]
  · intro hfail
    simp only [parseClaudeResponse]
    rcases hfail with h1 | h2 | h3
    · rw [if_neg (fun hc => hc.1 h1)]
    · rw [if_neg (fun hc => absurd hc.2 (not_lt.mpr h2))]
    · by_cases hcond : (strFind '\x7b' text ≠ -1
          ∧ strRfind '\x7d' text + 1 > strFind '\x7b' text)
      · rw [if_pos hcond, h3]
      · rw [if_neg hcond]
  · intro hfree
    have hfind : strFind '\x7b' text = -1 :=
      strFind_eq_neg_one (fun x hx => (hfree x hx).1)
    have hraw : parseClaudeResponse loads text = ClaudeResp.rawResponse text := by
      simp only [parseClaudeResponse]
      rw [if_neg (fun hc => hc.1 hfind)]
    refine ⟨hraw, ?_⟩
    rw [hraw]
    show parseClaudeResponse loads text = ClaudeResp.rawResponse text
    exact hraw

/-- C2 witness: with the identity decoder, `"a\x7b1\x7db"` parses to
its brace slice, through the brace-pair branch of the parser theorem. -/
theorem C2_parser_spec_witness :
    parseClaudeResponse (fun s => some s) "a\x7b1\x7db" = ClaudeResp.parsed "\x7b1\x7d" :=
  (C2_parser_spec (fun s => some s) "a\x7b1\x7db").2.1 1 3 (by decide) (by decide)
    (by decide) "\x7b1\x7d" (by decide)

/-- C6, counterexample: on the degraded analysis document (all
structured fields absent), the delegation fragment is the bare header:
the missing delegation list renders nothing — neither the `"Нет данных"`
placeholder nor any other text — and the SOP fragment list is empty, so
not every missing field or list renders a "no data" placeholder. -/
theorem C6_counterexample :
    (formatTelegramReport ⟨0, [], [], []⟩ (degradedAnalysis "просто текст")).delegation
        = "🎯 <b>ДЕЛЕГИРОВАТЬ</b>\n\n"
    ∧ ¬ ("Нет данных".data
          <:+: (formatTelegramReport ⟨0, [], [], []⟩
                  (degradedAnalysis "просто текст")).delegation.data)
    ∧ (formatTelegramReport ⟨0, [], [], []⟩ (degradedAnalysis "просто текст")).sops = [] := by
  refine ⟨rfl, by decide, rfl⟩

set_option maxRecDepth 8000 in
/-- C6, amended: the renderer is total and always returns all six
fragment groups; a missing summary, peak-hour list, wasted-time list
or metrics field renders its designated placeholder (`Нет данных`,
`N/A`, `• Нет данных`), as the evaluated degraded-input main fragment
shows, and a SOP record's missing step list renders `Нет шагов`, as
the evaluated single-SOP fragment shows — but a missing delegation,
action or automation list renders only the fragment's bare header with
no items and no placeholder, and a missing SOP list yields zero SOP
fragments. -/
theorem C6_amended (st : Stats) (a : Analysis) :
    (a.delegation_opportunities = none →
      (formatTelegramReport st a).delegation = "🎯 <b>ДЕЛЕГИРОВАТЬ</b>\n\n")
    ∧ (a.action_plan = none →
      (formatTelegramReport st a).actions = "🚀 <b>ACTION PLAN</b>\n\n")
    ∧ (a.automation_ideas = none →
      (formatTelegramReport st a).automation = "🤖 <b>АВТОМАТИЗИРОВАТЬ</b>\n\n")
    ∧ (a.sop_candidates = none → (formatTelegramReport st a).sops = [])
    ∧ (formatTelegramReport ⟨0, [], [], []⟩ (degradedAnalysis "просто текст")).main
        = "📊 <b>АНАЛИЗ КОММУНИКАЦИИ</b>\n<i>Период: 30 дней</i>\n\nНет данных\n\n━━━━━━━━━━━━━━━\n\n📈 <b>СТАТИСТИКА</b>\n• Всего сообщений: <code>0</code>\n• Личные чаты: <code>0</code>\n• Группы: <code>0</code>\n\n━━━━━━━━━━━━━━━\n\n⏰ <b>ВРЕМЯ</b>\nПики: N/A\n\nПотери времени:\n• Нет данных\n\n━━━━━━━━━━━━━━━\n\n📊 <b>МЕТРИКИ</b>\n• Операционка/Стратегия: N/A\n• Переключение контекста: N/A\n"
    ∧ (formatTelegramReport ⟨0, [], [], []⟩ (degradedAnalysis "просто текст")).top_chats
        = "💬 <b>ТОП-10 ЧАТОВ</b>\n\n"
    ∧ (formatTelegramReport ⟨0, [], [], []⟩ sopOnlyAnalysis).sops
        = ["📋 <b>SOP #1: Процесс</b>\n\n\n\n<b>Триггер:</b> не указан\n<b>Владелец:</b> не назначен\n\n<b>Шаги:</b>\nНет шагов\n\n<b>Инструменты:</b> \n"] := by
  refine ⟨?_, ?_, ?_, ?_, by decide, rfl, by decide⟩
  · intro h
    simp only [formatTelegramReport, h]
    rfl
  · intro h
    simp only [formatTelegramReport, h]
    rfl
  · intro h
    simp only [formatTelegramReport, h]
    rfl
  · intro h
    simp only [formatTelegramReport, h]
    rfl

/-- C6 witness: the fully-degraded document instantiates every
hypothesis of the amended renderer theorem. -/
theorem C6_amended_witness :
    (formatTelegramReport ⟨3, [], [], []⟩ (degradedAnalysis "x")).delegation
        = "🎯 <b>ДЕЛЕГИРОВАТЬ</b>\n\n"
    ∧ (formatTelegramReport ⟨3, [], [], []⟩ (degradedAnalysis "x")).actions
        = "🚀 <b>ACTION PLAN</b>\n\n"
    ∧ (formatTelegramReport ⟨3, [], [], []⟩ (degradedAnalysis "x")).sops = [] :=
  ⟨(C6_amended ⟨3, [], [], []⟩ (degradedAnalysis "x")).1 rfl,
   (C6_amended ⟨3, [], [], []⟩ (degradedAnalysis "x")).2.1 rfl,
   (C6_amended ⟨3, [], [], []⟩ (degradedAnalysis "x")).2.2.2.1 rfl⟩

/-- C8, counterexample: with every Telegram credential present but the
model API key empty, startup raises no configuration error and proceeds
straight to network activity — the missing mandatory model key is not
checked before the network is touched. -/
theorem C8_counterexample :
    analyzerStartup ⟨12345, "hash", "session", "", "", ""⟩ = Startup.networkConnect := by
  decide

/-- C8, amended: a missing Telegram API id, API hash or session string
makes startup fail fast with a configuration error before any network
activity; startup reaches the network exactly when those three are
present — the model API key is never examined pre-flight. -/
theorem C8_amended (c : Config) :
    ((c.apiId = 0 ∨ c.apiHash = "" ∨ c.sessionString = "") →
      ∃ msg, analyzerStartup c = Startup.configError msg)
    ∧ (analyzerStartup c = Startup.networkConnect
        ↔ ¬(c.apiId = 0 ∨ c.apiHash = "" ∨ c.sessionString = "")) := by
  unfold analyzerStartup
  by_cases h1 : c.apiId = 0 ∨ c.apiHash = ""
  · rw [if_pos h1]
    constructor
    · intro _; exact ⟨_, rfl⟩
    · constructor
      · intro hc; cases hc
      · intro hc
        exact absurd (by tauto) hc
  · rw [if_neg h1]
    by_cases h2 : c.sessionString = ""
    · rw [if_pos h2]
      constructor
      · intro _; exact ⟨_, rfl⟩
      · constructor
        · intro hc; cases hc
        · intro hc; exact absurd (by tauto) hc
    · rw [if_neg h2]
      constructor
      · intro hmiss
        rcases hmiss with hm | hm | hm
        · exact absurd (Or.inl hm) h1
        · exact absurd (Or.inr hm) h1
        · exact absurd hm h2
      · constructor
        · intro _
          intro hmiss
          rcases hmiss with hm | hm | hm
          · exact h1 (Or.inl hm)
          · exact h1 (Or.inr hm)
          · exact h2 hm
        · intro _; rfl

/-- C8 amended witness: a configuration without the session string
fails fast with a configuration error. -/
theorem C8_amended_witness :
    ∃ msg, analyzerStartup ⟨12345, "hash", "", "key", "", ""⟩ = Startup.configError msg :=
  (C8_amended ⟨12345, "hash", "", "key", "", ""⟩).1 (Or.inr (Or.inr rfl))

/-- The send loop posts every fragment, each truncated to 4096
characters, whatever the per-call outcomes, and advances the call
index by the fragment count. -/
theorem sendLoop_spec (transport : Nat → SendOutcome) :
    ∀ (l : List String) (idx : Nat),
      (sendLoop transport idx l).1.map Prod.fst = l.map (pyTake 4096)
      ∧ (sendLoop transport idx l).2 = idx + l.length := by
  intro l
  induction l with
  | nil => intro idx; simp [sendLoop]
  | cons t ts ih =>
    intro idx
    have h := ih (idx + 1)
    simp only [sendLoop, List.map_cons]
    refine ⟨?_, ?_⟩
    · rw [h.1]
    · rw [h.2]
      simp
      omega

/-- C9: with bot credentials configured, the dispatcher posts every
fragment in order — the five main fragments, every SOP fragment, then
the unconditional final acknowledgement — regardless of the per-call
outcomes (non-success responses and transport exceptions are caught per
fragment), and the only call whose exception can escape the dispatcher
(to be caught at `run`'s boundary) is the final acknowledgement. -/
theorem C9_dispatch (botToken chatId : String) (reports : Reports) (ackText : String)
    (transport : Nat → SendOutcome) (hb : botToken ≠ "") (hc : chatId ≠ "") :
    ((sendViaBot botToken chatId reports ackText transport).1.map Prod.fst
        = ([reports.main, reports.delegation, reports.actions, reports.automation,
            reports.top_chats].map (pyTake 4096))
          ++ reports.sops.map (pyTake 4096) ++ [ackText])
    ∧ ((sendViaBot botToken chatId reports ackText transport).2 = true
        ↔ transport (5 + reports.sops.length) = SendOutcome.exn) := by
  have hcred : ¬ (botToken = "" ∨ chatId = "") := by
    intro h; rcases h with h | h
    · exact hb h
    · exact hc h
  simp only [sendViaBot]
  rw [if_neg hcred]
  have h1 := sendLoop_spec transport
    [reports.main, reports.delegation, reports.actions, reports.automation, reports.top_chats] 0
  have h2 := sendLoop_spec transport reports.sops
    (sendLoop transport 0 [reports.main, reports.delegation, reports.actions,
      reports.automation, reports.top_chats]).2
  constructor
  · simp only [List.map_append, List.map_cons, List.map_nil]
    rw [h1.1, h2.1]
    simp
  · have hidx : (sendLoop transport
        (sendLoop transport 0 [reports.main, reports.delegation, reports.actions,
          reports.automation, reports.top_chats]).2 reports.sops).2
        = 5 + reports.sops.length := by
      rw [h2.2, h1.2]
      simp
    rw [hidx]
    exact beq_iff_eq

/-- C9 witness: a concrete run in which fragment 2 gets a non-success
response and fragment 3 a transport exception still posts every
fragment and the acknowledgement. -/
theorem C9_dispatch_witness :
    ((sendViaBot "token" "42" ⟨"m", "d", ["s1"], "ac", "au", "t"⟩ "done"
        (fun i => if i = 1 then SendOutcome.httpErr
                  else if i = 2 then SendOutcome.exn else SendOutcome.ok)).1.map Prod.fst
      = ["m", "d", "ac", "au", "t", "s1", "done"]) := by
  have h := (C9_dispatch "token" "42" ⟨"m", "d", ["s1"], "ac", "au", "t"⟩ "done"
    (fun i => if i = 1 then SendOutcome.httpErr
              else if i = 2 then SendOutcome.exn else SendOutcome.ok)
    (by decide) (by decide)).1
  rw [h]
  decide

end TgAnalyzer
